import Mathlib

/-!
# Verification of the Nava prompt-to-action compiler and execution engine

Shallow embedding of the core of the `Abdulmuiz44/Nava` repository:

* `src/nava-cli/task_executor.py` — the task interpreter (`execute_task`),
  chain executor (`execute_task_chain`), data extractor (`_extract_data`)
  and URL absolutization (`_ensure_url`);
* `src/nava-cli/cli.py` / `src/cli.py` — the URL-aware prompt splitter
  (`_parse_task_chain`);
* `src/nava-cli/workflow.py` — variable expansion (`expand_variables`);
* `src/scheduler.py` — the retry manager (`RetryManager.execute_with_retry`).

Python strings are modelled as `List Char`; capability calls of the
browser session are modelled as a record of oracles returning
`Except String _` (an `.error` models a raised exception, carrying
`str(e)`).  The interpreter additionally returns the list of capability
calls it performed, making "which calls were made" provable.

Whitespace, case folding and the `\w` character class are modelled at
ASCII fidelity (the Python originals are unicode-aware; none of the
verified properties depend on the difference).
-/

namespace Nava

/-! ## Python string primitives -/

/-- The whitespace characters recognised by Python's `str.strip` / `\s`
(ASCII fragment). -/
def pySpace (c : Char) : Bool :=
  c = ' ' || c = '\t' || c = '\n' || c = '\r' || c = '\x0b' || c = '\x0c'

/-- Python `str.strip()`: drop whitespace from both ends. -/
def pyStrip (s : List Char) : List Char :=
  ((s.dropWhile pySpace).reverse.dropWhile pySpace).reverse

/-- Python `str.lower()` (ASCII fragment). -/
def pyLower (s : List Char) : List Char := s.map Char.toLower

/-- Python `pat in s` (substring test). -/
def containsSub (pat s : List Char) : Bool := s.tails.any pat.isPrefixOf

/-- Delete every whitespace character; two strings are equal "modulo
whitespace" iff their `deWs` images coincide. -/
def deWs (s : List Char) : List Char := s.filter (fun c => !(pySpace c))

/-! ## Regex building blocks

The grammar patterns of the task interpreter are Python regexes, applied
with `re.match` and the `IGNORECASE` flag.  Each pattern is embedded as a
hand-written matcher following the regex literally, with Python's
backtracking priorities: a greedy piece offers its candidates longest
first, a lazy piece (`.+?`) shortest first, an optional piece (`X?`)
with `X` first, and an alternation in written order.  All matchers are
applied to stripped text (`execute_task` strips its prompt before
matching), so the `$`-before-trailing-newline subtlety of Python's `$`
cannot arise and `$` is modelled as end-of-input. -/

/-- Length of the maximal `\s`-prefix. -/
def spaceRun : List Char → Nat
  | [] => 0
  | c :: cs => if pySpace c then spaceRun cs + 1 else 0

/-- Candidate rests after `\s+`, greedy (longest consumed) first;
empty when there is no leading whitespace. -/
def plusSpaces (s : List Char) : List (List Char) :=
  (List.range (spaceRun s)).map (fun i => s.drop (spaceRun s - i))

/-- Rest after `\s*` when the following piece cannot start with
whitespace (true for every use below: a literal letter follows). -/
def starSpaces (s : List Char) : List Char := s.drop (spaceRun s)

/-- Length of the maximal run of characters matchable by `.`
(anything but a newline). -/
def dotRun : List Char → Nat
  | [] => 0
  | c :: cs => if c = '\n' then 0 else dotRun cs + 1

/-- Candidates `(group, rest)` for a lazy group `(.+?)`, shortest group
first. -/
def lazyGroup (s : List Char) : List (List Char × List Char) :=
  (List.range (dotRun s)).map (fun i => (s.take (i + 1), s.drop (i + 1)))

/-- Candidate rests for `['"]?`: consuming the quote is preferred. -/
def optQuote : List Char → List (List Char)
  | [] => [[]]
  | c :: cs => if c = '\'' || c = '"' then [cs, c :: cs] else [c :: cs]

/-- Case-insensitive literal (the literal is given in lower case);
returns the rest on success. -/
def litCI (w : List Char) (s : List Char) : Option (List Char) :=
  if (s.take w.length).map Char.toLower = w then some (s.drop w.length) else none

/-- A final greedy group `(.+)$`: the whole rest, if non-empty and
newline-free. -/
def restGroup (s : List Char) : Option (List Char) :=
  if s ≠ [] ∧ s.all (fun c => c ≠ '\n') then some s else none

/-- Python's `\w` (ASCII fragment). -/
def wordChar (c : Char) : Bool := c.isAlphanum || c = '_'

/-- A final group `(\w+)$`: the whole rest, if non-empty and made of
word characters. -/
def wordGroup (s : List Char) : Option (List Char) :=
  if s ≠ [] ∧ s.all wordChar then some s else none

/-! ## The grammar patterns of `task_executor.py`

Each function embeds one of the module-level compiled regexes; the
returned tuples are the named groups, raw (the caller strips them, as
the Python code does). -/

/-- `_IF_PATTERN`:
`^\s*if\s+['"]?(?P<condition>.+?)['"]?\s+(?:exists|is present)\s+then\s+(?P<then>.+?)(?:\s+else\s+(?P<else>.+))?$`.
Returns `(condition, then, else?)`. -/
def ifMatch (s : List Char) : Option (List Char × List Char × Option (List Char)) :=
  (litCI "if".data (starSpaces s)).bind fun s1 =>
    (plusSpaces s1).findSome? fun s2 =>
      (optQuote s2).findSome? fun s3 =>
        (lazyGroup s3).findSome? fun cnd =>
          (optQuote cnd.2).findSome? fun s5 =>
            (plusSpaces s5).findSome? fun s6 =>
              ([litCI "exists".data s6, litCI "is present".data s6].reduceOption).findSome? fun s7 =>
                (plusSpaces s7).findSome? fun s8 =>
                  (litCI "then".data s8).bind fun s9 =>
                    (plusSpaces s9).findSome? fun s10 =>
                      (lazyGroup s10).findSome? fun thn =>
                        match (plusSpaces thn.2).findSome? (fun s12 =>
                                (litCI "else".data s12).bind fun s13 =>
                                  (plusSpaces s13).findSome? fun s14 =>
                                    restGroup s14) with
                        | some els => some (cnd.1, thn.1, some els)
                        | none => if thn.2 = [] then some (cnd.1, thn.1, none) else none

/-- `_EXTRACT_PATTERN`: `^\s*extract\s+(?P<items>.+?)\s+from\s+(?P<url>.+)$`.
Returns `(items, url)`. -/
def extractMatch (s : List Char) : Option (List Char × List Char) :=
  (litCI "extract".data (starSpaces s)).bind fun s1 =>
    (plusSpaces s1).findSome? fun s2 =>
      (lazyGroup s2).findSome? fun itms =>
        (plusSpaces itms.2).findSome? fun s4 =>
          (litCI "from".data s4).bind fun s5 =>
            (plusSpaces s5).findSome? fun s6 =>
              (restGroup s6).map fun url => (itms.1, url)

/-- `_CLICK_PATTERN`: `^\s*click\s+(?:on\s+)?['"]?(?P<selector>.+?)['"]?$`. -/
def clickMatch (s : List Char) : Option (List Char) :=
  (litCI "click".data (starSpaces s)).bind fun s1 =>
    (plusSpaces s1).findSome? fun s2 =>
      (((litCI "on".data s2).map plusSpaces).getD [] ++ [s2]).findSome? fun s3 =>
        (optQuote s3).findSome? fun s4 =>
          (lazyGroup s4).findSome? fun sel =>
            (optQuote sel.2).findSome? fun s6 =>
              if s6 = [] then some sel.1 else none

/-- `_FILL_PATTERN`: `^\s*fill\s+(?P<selector>.+?)\s+with\s+(?P<value>.+)$`.
Returns `(selector, value)`. -/
def fillMatch (s : List Char) : Option (List Char × List Char) :=
  (litCI "fill".data (starSpaces s)).bind fun s1 =>
    (plusSpaces s1).findSome? fun s2 =>
      (lazyGroup s2).findSome? fun sel =>
        (plusSpaces sel.2).findSome? fun s4 =>
          (litCI "with".data s4).bind fun s5 =>
            (plusSpaces s5).findSome? fun s6 =>
              (restGroup s6).map fun v => (sel.1, v)

/-- `_TYPE_PATTERN`: `^\s*type\s+['"]?(?P<text>.+?)['"]?\s+(?:in|into)\s+(?P<selector>.+)$`.
Returns `(text, selector)`. -/
def typeMatch (s : List Char) : Option (List Char × List Char) :=
  (litCI "type".data (starSpaces s)).bind fun s1 =>
    (plusSpaces s1).findSome? fun s2 =>
      (optQuote s2).findSome? fun s3 =>
        (lazyGroup s3).findSome? fun txt =>
          (optQuote txt.2).findSome? fun s5 =>
            (plusSpaces s5).findSome? fun s6 =>
              ([litCI "in".data s6, litCI "into".data s6].reduceOption).findSome? fun s7 =>
                (plusSpaces s7).findSome? fun s8 =>
                  (restGroup s8).map fun sel => (txt.1, sel)

/-- `_PRESS_PATTERN`: `^\s*press\s+(?P<key>\w+)$`. -/
def pressMatch (s : List Char) : Option (List Char) :=
  (litCI "press".data (starSpaces s)).bind fun s1 =>
    (plusSpaces s1).findSome? fun s2 => wordGroup s2

/-- `_WAIT_PATTERN`:
`^\s*wait\s+(?:for\s+)?['"]?(?P<selector>.+?)['"]?(?:\s+to\s+(?P<condition>\w+))?$`.
Returns `(selector, condition?)`. -/
def waitMatch (s : List Char) : Option (List Char × Option (List Char)) :=
  (litCI "wait".data (starSpaces s)).bind fun s1 =>
    (plusSpaces s1).findSome? fun s2 =>
      (((litCI "for".data s2).map plusSpaces).getD [] ++ [s2]).findSome? fun s3 =>
        (optQuote s3).findSome? fun s4 =>
          (lazyGroup s4).findSome? fun sel =>
            (optQuote sel.2).findSome? fun s6 =>
              match (plusSpaces s6).findSome? (fun s7 =>
                      (litCI "to".data s7).bind fun s8 =>
                        (plusSpaces s8).findSome? fun s9 =>
                          wordGroup s9) with
              | some cond => some (sel.1, some cond)
              | none => if s6 = [] then some (sel.1, none) else none

/-- `_SCREENSHOT_PATTERN`: `^\s*(?:take\s+)?screenshot(?:\s+(?P<path>.+))?$`.
Returns `some path?` on a match. -/
def screenshotMatch (s : List Char) : Option (Option (List Char)) :=
  let s0 := starSpaces s
  (((litCI "take".data s0).map plusSpaces).getD [] ++ [s0]).findSome? fun s1 =>
    (litCI "screenshot".data s1).bind fun s2 =>
      match (plusSpaces s2).findSome? restGroup with
      | some path => some (some path)
      | none => if s2 = [] then some none else none

/-- `_EXECUTE_PATTERN`: `^\s*execute\s+(?P<script>.+)$`. -/
def executeMatch (s : List Char) : Option (List Char) :=
  (litCI "execute".data (starSpaces s)).bind fun s1 =>
    (plusSpaces s1).findSome? fun s2 => restGroup s2

/-- `_GO_TO_PATTERN`: `^\s*go\s+to\s+(?P<target>.+)$`. -/
def goToMatch (s : List Char) : Option (List Char) :=
  (litCI "go".data (starSpaces s)).bind fun s1 =>
    (plusSpaces s1).findSome? fun s2 =>
      (litCI "to".data s2).bind fun s3 =>
        (plusSpaces s3).findSome? fun s4 => restGroup s4

/-- `_SEARCH_PATTERN`: `^\s*search\s+(?:for\s+)?(?P<term>.+)$`. -/
def searchMatch (s : List Char) : Option (List Char) :=
  (litCI "search".data (starSpaces s)).bind fun s1 =>
    (plusSpaces s1).findSome? fun s2 =>
      (((litCI "for".data s2).map plusSpaces).getD [] ++ [s2]).findSome? fun s3 =>
        restGroup s3

/-! ## URL helpers of `task_executor.py` -/

/-- Length of the maximal `[a-zA-Z]`-prefix. -/
def alphaRun : List Char → Nat
  | [] => 0
  | c :: cs => if c.isAlpha then alphaRun cs + 1 else 0

/-- `re.match(r"^[a-z]+://", raw, flags=re.IGNORECASE)`.  A letter can
never match the following `:`, so the greedy `[a-z]+` succeeds exactly
when the maximal letter run is non-empty and followed by `://`. -/
def schemeMatch (raw : List Char) : Bool :=
  decide (1 ≤ alphaRun raw) && "://".data.isPrefixOf (raw.drop (alphaRun raw))

/-- `_ensure_url`: ensure the raw string is a URL with protocol. -/
def ensure_url (raw : List Char) : List Char :=
  if schemeMatch raw then raw
  else if "localhost".data.isPrefixOf raw || "127.0.0.1".data.isPrefixOf raw then
    "http://".data ++ raw
  else "https://".data ++ raw

/-- Upper-case hexadecimal digit for `n < 16`. -/
def hexDigit (n : Nat) : Char :=
  if n < 10 then Char.ofNat ('0'.toNat + n) else Char.ofNat ('A'.toNat + (n - 10))

/-- `urllib.parse.quote_plus` on one character: space becomes `+`,
ASCII alphanumerics and `_.-~` pass through, everything else is
percent-encoded per UTF-8 byte. -/
def quotePlusChar (c : Char) : List Char :=
  if c = ' ' then ['+']
  else if c.isAlphanum || c = '_' || c = '.' || c = '-' || c = '~' then [c]
  else (String.utf8EncodeChar c).flatMap fun b =>
    ['%', hexDigit (b.toNat / 16), hexDigit (b.toNat % 16)]

/-- `urllib.parse.quote_plus`. -/
def quote_plus (s : List Char) : List Char := s.flatMap quotePlusChar

/-- `_build_google_search_url`. -/
def build_google_search_url (query : List Char) : List Char :=
  "https://www.google.com/search?q=".data ++ quote_plus query ++ "&hl=en".data

/-! ## Data model of `task_executor.py` -/

/-- Opaque payload produced by the capability provider's
script-evaluation primitive, modelled by its rendering. -/
abbrev JsVal := String

/-- The seven DOM-extraction routines `_extract_data` dispatches to;
each tag stands for the corresponding JavaScript literal passed to
`page.evaluate`. -/
inductive ExtractScript where
  | links
  | headings
  | images
  | buttons
  | tables
  | textLines
  | generic
deriving DecidableEq, Repr

/-- The dictionary built by `_extract_data`:
`{"query": ..., "results": [...]}`, plus `count` after a successful
routine or `error` after a swallowed internal failure. -/
structure ExtractData where
  query : String
  results : List JsVal
  count : Option Nat
  error : Option String
deriving DecidableEq, Repr

/-- The `data` field of a `TaskResult`: either the extraction
dictionary or `{"result": ...}` from `execute_js`. -/
inductive TaskData where
  | extracted (d : ExtractData)
  | jsResult (result : JsVal)
deriving DecidableEq, Repr

/-- `TaskResult`, the structured result of one interpreted task.  The
`task_type` field holds one of the `TaskType` literals
(`"navigate"`, `"search"`, `"extract"`, `"click"`, `"fill"`, `"type"`,
`"press"`, `"wait"`, `"screenshot"`, `"execute_js"`, `"unknown"`). -/
structure TaskResult where
  task_type : String
  detail : String
  success : Bool
  error_message : String := ""
  data : Option TaskData := none
deriving DecidableEq, Repr

/-- One capability call performed through the browser session. -/
inductive CapCall where
  | query_selector (selector : String)
  | goto (url : String)
  | click (selector : String)
  | type_text (selector text : String)
  | press (selector key : String)
  | wait_for_selector (selector : String) (hidden : Bool)
  | screenshot (path : String)
  | evaluate (script : String)
  | extract_evaluate (script : ExtractScript)
deriving DecidableEq, Repr

/-- The capability provider (`BrowserSession` and its `page`), as a
record of deterministic oracles.  `.error e` models the call raising an
exception whose `str` is `e`; `query_selector` returns whether an
element exists (`... is not None` in the source); `type_text` models
`session.type`; `wait_for_selector`'s flag is `state="hidden"`. -/
structure BrowserSession where
  query_selector : String → Except String Bool
  goto : String → Except String Unit
  click : String → Except String Unit
  type_text : String → String → Except String Unit
  press : String → String → Except String Unit
  wait_for_selector : String → Bool → Except String Unit
  screenshot : String → Except String Unit
  evaluate : String → Except String JsVal
  extract_evaluate : ExtractScript → Except String (List JsVal)

/-- Decidable equality of call outcomes (used only to let concrete
witnesses be checked by `decide`). -/
instance exceptDecEq {ε α : Type} [DecidableEq ε] [DecidableEq α] :
    DecidableEq (Except ε α) := fun x y =>
  match x, y with
  | .ok a, .ok b =>
    if h : a = b then isTrue (congrArg _ h) else isFalse (fun hh => h (Except.ok.inj hh))
  | .error a, .error b =>
    if h : a = b then isTrue (congrArg _ h) else isFalse (fun hh => h (Except.error.inj hh))
  | .ok _, .error _ => isFalse (fun hh => Except.noConfusion hh)
  | .error _, .ok _ => isFalse (fun hh => Except.noConfusion hh)

/-! ## The data extractor -/

/-- Keyword dispatch of `_extract_data`: the chain of
`"link" in query.lower()` / `"heading"` / `"image"` / `"button"` /
`"table"` / `"text"` tests, with the generic fallback. -/
def chooseScript (query : String) : ExtractScript :=
  if containsSub "link".data (pyLower query.data) then .links
  else if containsSub "heading".data (pyLower query.data) then .headings
  else if containsSub "image".data (pyLower query.data) then .images
  else if containsSub "button".data (pyLower query.data) then .buttons
  else if containsSub "table".data (pyLower query.data) then .tables
  else if containsSub "text".data (pyLower query.data) then .textLines
  else .generic

/-- `_extract_data`: runs the dispatched routine; a successful routine
stores `results` and `count = len(results)`, an exception is swallowed
and recorded under `error`, leaving `results` at its initial `[]` and
`count` absent. -/
def extract_data (session : BrowserSession) (query : String) : ExtractData :=
  match session.extract_evaluate (chooseScript query) with
  | .ok results =>
    { query := query, results := results, count := some results.length, error := none }
  | .error e =>
    { query := query, results := [], count := none, error := some e }

/-! ## The task interpreter -/

/-- The result returned for an empty (or whitespace-only) prompt,
before any pattern is tried. -/
def validation_failure : TaskResult :=
  { task_type := "unknown", detail := "", success := false,
    error_message := "Prompt must not be empty." }

/-- The `try:` body of `execute_task`, for an already validated,
stripped prompt.  Mirrors the ordered pattern cascade of the source;
exceptions of capability calls propagate as `.error` (to be converted
by the caller's `except Exception` handler), except for the conditional
existence probe, whose bare `except:` maps any error to
`exists = False`.  The recursive call of the conditional branch is
abstracted as `recurse` (instantiated with `execute_task` itself);
alongside the result, the list of capability calls performed is
returned. -/
def execute_task_body (session : BrowserSession)
    (recurse : List Char → TaskResult × List CapCall)
    (stripped : List Char) : Except String TaskResult × List CapCall :=
  -- Check for conditional logic
  match ifMatch stripped with
  | some (cond0, then0, else0) =>
    let condition : String := ⟨pyStrip cond0⟩
    let then_action := pyStrip then0
    let exists_ : Bool :=
      match session.query_selector condition with
      | .ok b => b
      | .error _ => false
    let action_to_execute := if exists_ then then_action else else0.getD []
    if action_to_execute ≠ [] then
      let rc := recurse action_to_execute
      (.ok rc.1, .query_selector condition :: rc.2)
    else
      (.ok { task_type := "unknown",
             detail := "Condition " ++ (if exists_ then "true" else "false") ++
               ", no action executed",
             success := true },
       [.query_selector condition])
  | none =>
  -- Try extraction pattern
  match extractMatch stripped with
  | some (items0, url0) =>
    let items : String := ⟨pyStrip items0⟩
    let url : String := ⟨ensure_url (pyStrip url0)⟩
    match session.goto url with
    | .error e => (.error e, [.goto url])
    | .ok _ =>
      let data := extract_data session items
      (.ok { task_type := "extract",
             detail := "Extracted " ++ toString (data.count.getD 0) ++ " items: " ++ items,
             success := true, data := some (.extracted data) },
       [.goto url, .extract_evaluate (chooseScript items)])
  | none =>
  -- Try click pattern
  match clickMatch stripped with
  | some sel0 =>
    let selector : String := ⟨pyStrip sel0⟩
    match session.click selector with
    | .error e => (.error e, [.click selector])
    | .ok _ =>
      (.ok { task_type := "click", detail := selector, success := true }, [.click selector])
  | none =>
  -- Try fill pattern
  match fillMatch stripped with
  | some (sel0, val0) =>
    let selector : String := ⟨pyStrip sel0⟩
    let value : String := ⟨pyStrip val0⟩
    match session.type_text selector value with
    | .error e => (.error e, [.type_text selector value])
    | .ok _ =>
      (.ok { task_type := "fill", detail := selector ++ " = " ++ value, success := true },
       [.type_text selector value])
  | none =>
  -- Try type pattern
  match typeMatch stripped with
  | some (txt0, sel0) =>
    let text : String := ⟨pyStrip txt0⟩
    let selector : String := ⟨pyStrip sel0⟩
    match session.type_text selector text with
    | .error e => (.error e, [.type_text selector text])
    | .ok _ =>
      (.ok { task_type := "type", detail := "Typed in " ++ selector, success := true },
       [.type_text selector text])
  | none =>
  -- Try press pattern
  match pressMatch stripped with
  | some key0 =>
    let key : String := ⟨pyStrip key0⟩
    match session.press "body" key with
    | .error e => (.error e, [.press "body" key])
    | .ok _ =>
      (.ok { task_type := "press", detail := "Pressed " ++ key, success := true },
       [.press "body" key])
  | none =>
  -- Try wait pattern
  match waitMatch stripped with
  | some (sel0, cond0) =>
    let selector : String := ⟨pyStrip sel0⟩
    let hidden : Bool :=
      match cond0 with
      | some c => containsSub "disappear".data (pyLower c)
      | none => false
    match session.wait_for_selector selector hidden with
    | .error e => (.error e, [.wait_for_selector selector hidden])
    | .ok _ =>
      (.ok { task_type := "wait", detail := "Waited for " ++ selector, success := true },
       [.wait_for_selector selector hidden])
  | none =>
  -- Try screenshot pattern
  match screenshotMatch stripped with
  | some path0 =>
    let path : String := match path0 with | some p => ⟨pyStrip p⟩ | none => "screenshot.png"
    match session.screenshot path with
    | .error e => (.error e, [.screenshot path])
    | .ok _ =>
      (.ok { task_type := "screenshot", detail := path, success := true }, [.screenshot path])
  | none =>
  -- Try execution pattern
  match executeMatch stripped with
  | some script0 =>
    let script : String := ⟨pyStrip script0⟩
    match session.evaluate script with
    | .error e => (.error e, [.evaluate script])
    | .ok result =>
      (.ok { task_type := "execute_js", detail := "Script executed", success := true,
             data := some (.jsResult result) },
       [.evaluate script])
  | none =>
  -- Try navigation pattern
  match goToMatch stripped with
  | some target0 =>
    let target : String := ⟨ensure_url (pyStrip target0)⟩
    match session.goto target with
    | .error e => (.error e, [.goto target])
    | .ok _ =>
      (.ok { task_type := "navigate", detail := target, success := true }, [.goto target])
  | none =>
  -- Try search pattern or default to search
  let query : String :=
    match searchMatch stripped with
    | some term0 => ⟨pyStrip term0⟩
    | none => ⟨stripped⟩
  let search_url : String := ⟨build_google_search_url query.data⟩
  match session.goto search_url with
  | .error e => (.error e, [.goto search_url])
  | .ok _ =>
    (.ok { task_type := "search", detail := query, success := true }, [.goto search_url])

/-- Fuel-indexed interpreter.  The fuel only bounds the recursion depth
of nested conditionals; `execute_task_fuel_sufficient` below shows that
any fuel exceeding the prompt length gives the same (fuel-free)
semantics, since each conditional recursion strictly shortens the
prompt. -/
def execute_task_fuel (session : BrowserSession) : Nat → List Char → TaskResult × List CapCall
  | 0, _ =>
    ({ task_type := "unknown", detail := "", success := false,
       error_message := "recursion limit" }, [])
  | fuel + 1, prompt =>
    let stripped := pyStrip prompt
    if stripped = [] then (validation_failure, [])
    else
      match execute_task_body session (execute_task_fuel session fuel) stripped with
      | (.ok r, calls) => (r, calls)
      | (.error e, calls) =>
        ({ task_type := "unknown", detail := ⟨stripped⟩, success := false,
           error_message := "Failed to execute task: " ++ e }, calls)

/-- `execute_task`: interpret `prompt` and perform the requested action
using `session`; returns the `TaskResult` together with the capability
calls performed. -/
def execute_task (session : BrowserSession) (prompt : List Char) : TaskResult × List CapCall :=
  execute_task_fuel session (prompt.length + 1) prompt

/-- `execute_task_chain`: execute multiple tasks in sequence, skipping
blank entries; with `continue_on_error = false` the loop breaks at the
first failed result.  The capability calls of the executed tasks are
accumulated alongside the results. -/
def execute_task_chain (session : BrowserSession) (continue_on_error : Bool) :
    List (List Char) → List TaskResult × List CapCall
  | [] => ([], [])
  | task :: rest =>
    if pyStrip task ≠ [] then
      let rc := execute_task session (pyStrip task)
      if !rc.1.success && !continue_on_error then
        ([rc.1], rc.2)
      else
        let rs := execute_task_chain session continue_on_error rest
        (rc.1 :: rs.1, rc.2 ++ rs.2)
    else execute_task_chain session continue_on_error rest

/-- The sequence of prompts `execute_task_chain` actually submits to
`execute_task`: each task stripped, blank entries skipped. -/
def nonblank_tasks (tasks : List (List Char)) : List (List Char) :=
  (tasks.map pyStrip).filter (fun s => s ≠ [])

/-! ## The prompt splitter (`_parse_task_chain`, identical in
`src/cli.py` and `src/nava-cli/cli.py`)

The loop scans character by character with a one-character lookbehind
(`prompt[i-1]`) and lookahead (`prompt[i+1]`), maintaining the
`in_url` flag; a comma is a separator only while the flag is clear. -/

/-- One update of the `in_url` flag, given the previous character, the
current buffer, the scanned character and the remaining input (for the
lookahead `i + 1 < len(prompt) and prompt[i+1] != " "`;
`rest.headD ' '` is `' '` exactly when the lookahead fails). -/
def url_flag_step (prev : Option Char) (inUrl : Bool) (current : List Char)
    (c : Char) (rest : List Char) : Bool :=
  if c = '/' && prev == some ':' then true
  else if c = ' ' && inUrl && rest.headD ' ' ≠ ' ' then
    (if containsSub "http".data current then false else inUrl)
  else inUrl

/-- The splitter loop: emits the stripped buffer (when non-blank) at
each separator comma and at the end. -/
def parse_task_chain_aux (prev : Option Char) (inUrl : Bool) (current : List Char) :
    List Char → List (List Char)
  | [] => if pyStrip current = [] then [] else [pyStrip current]
  | c :: rest =>
    let inUrl' := url_flag_step prev inUrl current c rest
    if c = ',' && !inUrl' then
      (if pyStrip current = [] then [] else [pyStrip current]) ++
        parse_task_chain_aux (some c) inUrl' [] rest
    else
      parse_task_chain_aux (some c) inUrl' (current ++ [c]) rest

/-- `_parse_task_chain`: parse comma-separated tasks, URL-aware. -/
def parse_task_chain (prompt : List Char) : List (List Char) :=
  parse_task_chain_aux none false [] prompt

/-- Companion of the splitter loop that emits every separator-delimited
segment raw — neither stripped nor filtered.  The separator positions
are exactly those of `parse_task_chain_aux`. -/
def raw_segments_aux (prev : Option Char) (inUrl : Bool) (current : List Char) :
    List Char → List (List Char)
  | [] => [current]
  | c :: rest =>
    let inUrl' := url_flag_step prev inUrl current c rest
    if c = ',' && !inUrl' then
      current :: raw_segments_aux (some c) inUrl' [] rest
    else
      raw_segments_aux (some c) inUrl' (current ++ [c]) rest

/-- The raw separator-delimited segments of a prompt. -/
def raw_segments (prompt : List Char) : List (List Char) :=
  raw_segments_aux none false [] prompt

/-- Re-join task fragments with `","` (the round-trip side of §8's
splitter property). -/
def joinComma : List (List Char) → List Char
  | [] => []
  | [x] => x
  | x :: xs => x ++ ',' :: joinComma xs

/-! ## Variable expansion (`workflow.py`) -/

/-- Python `str.replace` for the non-empty pattern `p :: ps`: scan left
to right, replace each occurrence and continue *after* the inserted
replacement (no rescanning of the replacement).  The `Nat` argument is
the number of pattern characters still to skip after a hit. -/
def replaceAllAux (p : Char) (ps rep : List Char) : Nat → List Char → List Char
  | _ + 1, [] => []
  | n + 1, _ :: cs => replaceAllAux p ps rep n cs
  | 0, [] => []
  | 0, c :: cs =>
    if (p :: ps).isPrefixOf (c :: cs) then rep ++ replaceAllAux p ps rep ps.length cs
    else c :: replaceAllAux p ps rep 0 cs

/-- Python `text.replace(String(p :: ps), rep)`. -/
def replaceAll (p : Char) (ps rep s : List Char) : List Char :=
  replaceAllAux p ps rep 0 s

/-- `expand_variables`: one `str.replace` of the literal `{name}` per
mapping entry, in iteration order of the mapping. -/
def expand_variables (text : List Char) (vars : List (List Char × List Char)) :
    List Char :=
  vars.foldl (fun t kv => replaceAll '{' (kv.1 ++ ['}']) kv.2 t) text

/-! ## The retry manager (`scheduler.py`)

`execute_with_retry` is modelled over an operation
`task_fn : Nat → Except String PyObj` giving the outcome of the
`attempt`-th invocation (an `.error` models a raised exception).
Returned alongside the outcome: the number of invocations performed
and the list of backoff sleeps, in seconds (floats modelled as `ℚ`). -/

/-- A Python value as seen by the retry loop: `None`, or an object with
a truthiness and an optional `success` attribute. -/
inductive PyObj where
  | noneObj
  | obj (truthy : Bool) (success : Option Bool)
deriving DecidableEq, Repr

/-- Python truthiness of a `PyObj`. -/
def pyTruthy : PyObj → Bool
  | .noneObj => false
  | .obj t _ => t

/-- `hasattr(result, 'success')` together with the attribute's value. -/
def successAttr : PyObj → Option Bool
  | .noneObj => none
  | .obj _ s => s

/-- `RetryManager(max_retries, base_delay)`. -/
structure RetryManager where
  max_retries : Nat
  base_delay : ℚ

/-- The `for attempt in range(self.max_retries + 1)` loop of
`execute_with_retry`; `remaining` counts the iterations left (it is
`max_retries + 1 - attempt` at the top-level call), `last_error` the
held exception.  After the loop, the last error is re-raised if any,
else `None` is returned. -/
def retry_loop (m : RetryManager) (task_fn : Nat → Except String PyObj) :
    Nat → Nat → Option String → Except String (Option PyObj) × Nat × List ℚ
  | 0, _, last_error =>
    ((match last_error with | some e => .error e | none => .ok none), 0, [])
  | remaining + 1, attempt, last_error =>
    match task_fn attempt with
    | .ok result =>
      -- `if result and hasattr(result, 'success') and result.success:`
      if pyTruthy result && ((successAttr result).getD false) then
        (.ok (some result), 1, [])
      -- `elif result:`
      else if pyTruthy result then
        (.ok (some result), 1, [])
      else
        let r := retry_loop m task_fn remaining (attempt + 1) last_error
        (r.1, r.2.1 + 1, r.2.2)
    | .error e =>
      -- `if attempt < self.max_retries:` sleep `base_delay * 2 ** attempt`
      let waits := if attempt < m.max_retries then [m.base_delay * 2 ^ attempt] else []
      let r := retry_loop m task_fn remaining (attempt + 1) (some e)
      (r.1, r.2.1 + 1, waits ++ r.2.2)

/-- `RetryManager.execute_with_retry`. -/
def execute_with_retry (m : RetryManager) (task_fn : Nat → Except String PyObj) :
    Except String (Option PyObj) × Nat × List ℚ :=
  retry_loop m task_fn (m.max_retries + 1) 0 none

/-! ## Concrete sessions used by the witnesses -/

/-- A session whose every capability call succeeds (and no element
exists). -/
def sessOK : BrowserSession :=
  { query_selector := fun _ => .ok false, goto := fun _ => .ok (), click := fun _ => .ok (),
    type_text := fun _ _ => .ok (), press := fun _ _ => .ok (),
    wait_for_selector := fun _ _ => .ok (), screenshot := fun _ => .ok (),
    evaluate := fun _ => .ok "v", extract_evaluate := fun _ => .ok [] }

/-- Like `sessOK`, but `click` raises. -/
def sessClickBoom : BrowserSession := { sessOK with click := fun _ => .error "boom" }

/-- Like `sessOK`, but `goto` raises. -/
def sessGotoBoom : BrowserSession := { sessOK with goto := fun _ => .error "net down" }

/-- Like `sessOK`, but the existence probe raises. -/
def sessProbeBoom : BrowserSession :=
  { sessOK with query_selector := fun _ => .error "probe died" }

/-- Like `sessOK`, but the extraction routine raises. -/
def sessExtractBoom : BrowserSession :=
  { sessOK with extract_evaluate := fun _ => .error "bad js" }

/-! ## Length bounds for the matcher combinators -/

theorem spaceRun_le (s : List Char) : spaceRun s ≤ s.length := by
  induction s with
  | nil => simp [spaceRun]
  | cons c cs ih =>
    simp only [spaceRun, List.length_cons]
    split <;> omega

theorem mem_plusSpaces {s r : List Char} (h : r ∈ plusSpaces s) : r.length < s.length := by
  unfold plusSpaces at h
  obtain ⟨i, hi, rfl⟩ := List.mem_map.mp h
  rw [List.mem_range] at hi
  have hm : spaceRun s ≤ s.length := spaceRun_le s
  rw [List.length_drop]
  omega

theorem starSpaces_length (s : List Char) : (starSpaces s).length ≤ s.length := by
  simp [starSpaces]

theorem mem_optQuote {s r : List Char} (h : r ∈ optQuote s) : r.length ≤ s.length := by
  cases s with
  | nil => simp only [optQuote, List.mem_singleton] at h; simp [h]
  | cons c cs =>
    simp only [optQuote] at h
    split at h <;> simp only [List.mem_cons, List.mem_singleton, List.not_mem_nil, or_false] at h
    · rcases h with rfl | rfl <;> simp
    · subst h; simp

theorem mem_lazyGroup {s : List Char} {gr : List Char × List Char} (h : gr ∈ lazyGroup s) :
    gr.1.length ≤ s.length ∧ gr.2.length ≤ s.length := by
  unfold lazyGroup at h
  obtain ⟨i, _, rfl⟩ := List.mem_map.mp h
  constructor
  · simp [List.length_take_le]
  · rw [List.length_drop]; omega

theorem litCI_length {w s r : List Char} (h : litCI w s = some r) : r.length ≤ s.length := by
  unfold litCI at h
  split at h
  · cases h; rw [List.length_drop]; omega
  · cases h

theorem restGroup_length {s g : List Char} (h : restGroup s = some g) : g.length ≤ s.length := by
  unfold restGroup at h
  split at h
  · cases h; exact le_refl _
  · cases h

theorem pyStrip_length (s : List Char) : (pyStrip s).length ≤ s.length := by
  unfold pyStrip
  calc ((s.dropWhile pySpace).reverse.dropWhile pySpace).reverse.length
      = ((s.dropWhile pySpace).reverse.dropWhile pySpace).length := List.length_reverse _
    _ ≤ (s.dropWhile pySpace).reverse.length := (List.dropWhile_sublist _).length_le
    _ = (s.dropWhile pySpace).length := List.length_reverse _
    _ ≤ s.length := (List.dropWhile_sublist _).length_le

/-- The groups of a conditional match are strictly shorter than the
matched text: the pattern consumes at least `if ... then ` around the
`then` group and at least ` else ` before the `else` group.  This is
what bounds the recursion depth of nested conditionals. -/
theorem ifMatch_length {s c t : List Char} {e : Option (List Char)}
    (h : ifMatch s = some (c, t, e)) :
    t.length < s.length ∧ ∀ e', e = some e' → e'.length < s.length := by
  unfold ifMatch at h
  rw [Option.bind_eq_some] at h
  obtain ⟨s1, h1, h⟩ := h
  obtain ⟨s2, hm2, h⟩ := List.exists_of_findSome?_eq_some h
  obtain ⟨s3, hm3, h⟩ := List.exists_of_findSome?_eq_some h
  obtain ⟨cnd, hm4, h⟩ := List.exists_of_findSome?_eq_some h
  obtain ⟨s5, hm5, h⟩ := List.exists_of_findSome?_eq_some h
  obtain ⟨s6, hm6, h⟩ := List.exists_of_findSome?_eq_some h
  obtain ⟨s7, hm7, h⟩ := List.exists_of_findSome?_eq_some h
  obtain ⟨s8, hm8, h⟩ := List.exists_of_findSome?_eq_some h
  rw [Option.bind_eq_some] at h
  obtain ⟨s9, h9, h⟩ := h
  obtain ⟨s10, hm10, h⟩ := List.exists_of_findSome?_eq_some h
  obtain ⟨thn, hm11, h⟩ := List.exists_of_findSome?_eq_some h
  have hb1 : s1.length ≤ s.length :=
    le_trans (litCI_length h1) (starSpaces_length s)
  have hb2 : s2.length < s1.length := mem_plusSpaces hm2
  have hb3 : s3.length ≤ s2.length := mem_optQuote hm3
  have hb4 := mem_lazyGroup hm4
  have hb5 : s5.length ≤ cnd.2.length := mem_optQuote hm5
  have hb6 : s6.length < s5.length := mem_plusSpaces hm6
  have hb7 : s7.length ≤ s6.length := by
    simp only [List.reduceOption, List.mem_filterMap, List.mem_cons, List.not_mem_nil,
      or_false, List.mem_singleton, id] at hm7
    rcases hm7 with ⟨o, ho, hso⟩
    rcases ho with rfl | rfl
    · exact litCI_length hso
    · exact litCI_length hso
  have hb8 : s8.length < s7.length := mem_plusSpaces hm8
  have hb9 : s9.length ≤ s8.length := litCI_length h9
  have hb10 : s10.length < s9.length := mem_plusSpaces hm10
  have hb11 := mem_lazyGroup hm11
  have hthn : thn.1.length < s.length := by omega
  have hthn2 : thn.2.length < s.length := by omega
  rcases hE : (plusSpaces thn.2).findSome? (fun s12 =>
      (litCI "else".data s12).bind fun s13 =>
        (plusSpaces s13).findSome? fun s14 => restGroup s14) with - | els <;>
    rw [hE] at h <;> dsimp only at h
  · split at h
    · simp only [Option.some.injEq, Prod.mk.injEq] at h
      obtain ⟨-, ht, he⟩ := h
      subst ht he
      exact ⟨hthn, by intro e' he'; cases he'⟩
    · cases h
  · simp only [Option.some.injEq, Prod.mk.injEq] at h
    obtain ⟨-, ht, he⟩ := h
    subst ht he
    obtain ⟨s12, hm12, hE⟩ := List.exists_of_findSome?_eq_some hE
    rw [Option.bind_eq_some] at hE
    obtain ⟨s13, h13, hE⟩ := hE
    obtain ⟨s14, hm14, hE⟩ := List.exists_of_findSome?_eq_some hE
    have hc1 : s12.length < thn.2.length := mem_plusSpaces hm12
    have hc2 : s13.length ≤ s12.length := litCI_length h13
    have hc3 : s14.length < s13.length := mem_plusSpaces hm14
    have hc4 : els.length ≤ s14.length := restGroup_length hE
    refine ⟨hthn, ?_⟩
    intro e' he'
    injection he' with he'
    subst he'
    omega

/-! ## The fixpoint equation of `execute_task`

The fuel of `execute_task_fuel` is irrelevant as soon as it exceeds the
prompt length, because a conditional recurses only on strictly shorter
text (`ifMatch_length`); this yields the Python-faithful recursion
equation `execute_task_eq`. -/

/-- The body consults its `recurse` argument only on strictly shorter
prompts. -/
theorem execute_task_body_congr (session : BrowserSession)
    (r₁ r₂ : List Char → TaskResult × List CapCall) (stripped : List Char)
    (hr : ∀ q, q.length < stripped.length → r₁ q = r₂ q) :
    execute_task_body session r₁ stripped = execute_task_body session r₂ stripped := by
  unfold execute_task_body
  rcases hIf : ifMatch stripped with - | ⟨cond0, then0, else0⟩
  · rfl
  · obtain ⟨hlt, hle⟩ := ifMatch_length hIf
    have hact : ∀ b : Bool,
        ((if b then pyStrip then0 else else0.getD []) : List Char).length < stripped.length := by
      intro b
      cases b with
      | false =>
        cases else0 with
        | none => simpa using Nat.lt_of_le_of_lt (Nat.zero_le _) hlt
        | some e' => simpa using hle e' rfl
      | true => simpa using Nat.lt_of_le_of_lt (pyStrip_length then0) hlt
    simp only [hr _ (hact _)]

/-- Any fuel exceeding the prompt length computes the fuel-free
semantics. -/
theorem execute_task_fuel_sufficient (session : BrowserSession) :
    ∀ fuel prompt, prompt.length < fuel →
      execute_task_fuel session fuel prompt = execute_task session prompt := by
  intro fuel
  induction fuel using Nat.strong_induction_on with
  | _ fuel ih =>
    intro prompt hlen
    match fuel, hlen with
    | f + 1, hlen =>
      show execute_task_fuel session (f + 1) prompt = execute_task session prompt
      rw [execute_task]
      show _ = execute_task_fuel session (prompt.length + 1) prompt
      unfold execute_task_fuel
      have hcong := execute_task_body_congr session
        (execute_task_fuel session f) (execute_task_fuel session prompt.length)
        (pyStrip prompt) ?_
      · simp only [hcong]
      · intro q hq
        have hsl : (pyStrip prompt).length ≤ prompt.length := pyStrip_length prompt
        rw [ih f (Nat.lt_succ_self f) q (by omega),
          ih prompt.length hlen q (by omega)]

/-- The recursion equation of `execute_task`: validate, then run the
pattern cascade, converting an escaped exception into a failed
`TaskResult` that carries the message. -/
theorem execute_task_eq (session : BrowserSession) (prompt : List Char) :
    execute_task session prompt =
      if pyStrip prompt = [] then (validation_failure, [])
      else
        match execute_task_body session (execute_task session) (pyStrip prompt) with
        | (.ok r, calls) => (r, calls)
        | (.error e, calls) =>
          ({ task_type := "unknown", detail := ⟨pyStrip prompt⟩, success := false,
             error_message := "Failed to execute task: " ++ e }, calls) := by
  conv_lhs => rw [execute_task]
  unfold execute_task_fuel
  have hcong := execute_task_body_congr session
    (execute_task_fuel session prompt.length) (execute_task session) (pyStrip prompt) ?_
  · simp only [hcong]
  · intro q hq
    have hsl : (pyStrip prompt).length ≤ prompt.length := pyStrip_length prompt
    exact execute_task_fuel_sufficient session prompt.length q (by omega)

/-! ## Claim C1 — the empty-prompt validation failure -/

/-- C1, counterexample.  The claim states that an empty (or
whitespace-only) prompt makes the interpreter *raise* a validation
error — the one error allowed to escape.  In the code
(`task_executor.py` lines 91–97) nothing escapes: the empty prompt is
answered with an ordinary *returned* failed `TaskResult` (the same
return-a-failure contract used for capability errors), with no
capability call.  Here the whitespace-only prompt `"  "` yields that
returned result. -/
theorem c1_counterexample :
    execute_task sessOK "  ".data = (validation_failure, []) ∧
    validation_failure.success = false ∧
    validation_failure.error_message = "Prompt must not be empty." := by decide

/-- C1 (amended): for an empty or whitespace-only prompt, the Task
Interpreter returns (rather than raises) the failed validation
`TaskResult` before any pattern is tried and without any capability
call; and no error escapes the interpreter: an exception of the
interpretation body reaching the boundary is converted into a failed
`TaskResult` carrying the message. -/
theorem c1_amended (session : BrowserSession) (prompt : List Char) :
    (pyStrip prompt = [] → execute_task session prompt = (validation_failure, [])) ∧
    (∀ e calls, pyStrip prompt ≠ [] →
      execute_task_body session (execute_task session) (pyStrip prompt) = (.error e, calls) →
      execute_task session prompt =
        ({ task_type := "unknown", detail := ⟨pyStrip prompt⟩, success := false,
           error_message := "Failed to execute task: " ++ e }, calls)) := by
  refine ⟨fun h => ?_, fun e calls hne hb => ?_⟩
  · rw [execute_task_eq, if_pos h]
  · rw [execute_task_eq, if_neg hne, hb]

/-- C1, witness: the amended claim applied to the whitespace-only
prompt `"  "` and to `"go to a.com"` on a session whose `goto`
raises `"net down"`. -/
theorem c1_witness :
    execute_task sessGotoBoom "  ".data = (validation_failure, []) ∧
    execute_task sessGotoBoom "go to a.com".data =
      ({ task_type := "unknown", detail := "go to a.com", success := false,
         error_message := "Failed to execute task: net down" }, [CapCall.goto "https://a.com"]) :=
  ⟨(c1_amended sessGotoBoom "  ".data).1 (by decide),
   (c1_amended sessGotoBoom "go to a.com".data).2 "net down" [CapCall.goto "https://a.com"]
     (by decide) (by decide)⟩

/-! ## Claim C10 — the interpreter never raises -/

/-- C10, counterexample.  The claim states that *any* exception thrown
by a capability call during execution is converted to a `TaskResult`
with `success = false` carrying the message.  But an exception of the
conditional existence probe is swallowed by the inner bare `except:`
(lines 107–110) and mapped to `exists = False`: with a probing session
that raises, the conditional task below returns `success = true` and no
error message, despite a capability call having thrown. -/
theorem c10_counterexample :
    sessProbeBoom.query_selector ".x" = .error "probe died" ∧
    execute_task sessProbeBoom "if '.x' exists then click 'A'".data =
      ({ task_type := "unknown", detail := "Condition false, no action executed",
         success := true }, [CapCall.query_selector ".x"]) := by decide

/-- C10 (amended): for every prompt and session the interpreter entry
point returns a `TaskResult` (never raises): an empty prompt yields the
validation failure; a body outcome is returned as-is; and an exception
of the body reaching the boundary — i.e. any capability error other
than the locally swallowed conditional-probe and data-extractor
failures — is caught and converted to a `TaskResult` with
`success = false` carrying the error message. -/
theorem c10_amended (session : BrowserSession) (prompt : List Char) :
    (pyStrip prompt = [] → execute_task session prompt = (validation_failure, [])) ∧
    (∀ r calls, pyStrip prompt ≠ [] →
      execute_task_body session (execute_task session) (pyStrip prompt) = (.ok r, calls) →
      execute_task session prompt = (r, calls)) ∧
    (∀ e calls, pyStrip prompt ≠ [] →
      execute_task_body session (execute_task session) (pyStrip prompt) = (.error e, calls) →
      execute_task session prompt =
        ({ task_type := "unknown", detail := ⟨pyStrip prompt⟩, success := false,
           error_message := "Failed to execute task: " ++ e }, calls)) := by
  refine ⟨fun h => ?_, fun r calls hne hb => ?_, fun e calls hne hb => ?_⟩
  · rw [execute_task_eq, if_pos h]
  · rw [execute_task_eq, if_neg hne, hb]
  · rw [execute_task_eq, if_neg hne, hb]

/-- C10, witness: the amended claim applied to a whitespace-only
prompt, a successful `click` task, and a failing `click` task. -/
theorem c10_witness :
    execute_task sessClickBoom " ".data = (validation_failure, []) ∧
    execute_task sessClickBoom "press Enter".data =
      ({ task_type := "press", detail := "Pressed Enter", success := true },
       [CapCall.press "body" "Enter"]) ∧
    execute_task sessClickBoom "click X".data =
      ({ task_type := "unknown", detail := "click X", success := false,
         error_message := "Failed to execute task: boom" }, [CapCall.click "X"]) :=
  ⟨(c10_amended sessClickBoom " ".data).1 (by decide),
   (c10_amended sessClickBoom "press Enter".data).2.1
     { task_type := "press", detail := "Pressed Enter", success := true }
     [CapCall.press "body" "Enter"] (by decide) (by decide),
   (c10_amended sessClickBoom "click X".data).2.2 "boom" [CapCall.click "X"]
     (by decide) (by decide)⟩

/-! ## Claim C8 — the conditional evaluator -/

/-- C8 (confirmed): for a conditional task, a probing error is treated
as "does not exist" and never propagated; and when the condition does
not hold and no `else` branch is present, the interpreter returns a
`success = true` result having made no capability call beyond the
existence probe itself.  (The first conjunct: no else branch, probe
false *or* raising — neutral success, only the probe call.  The second
conjunct: probe raising with an else branch — the else branch runs
exactly as if the probe had answered false, so the error is not
propagated.) -/
theorem c8_conditional (session : BrowserSession) (prompt cond0 then0 : List Char) :
    (ifMatch (pyStrip prompt) = some (cond0, then0, none) →
      (session.query_selector ⟨pyStrip cond0⟩ = .ok false ∨
        (∃ m, session.query_selector ⟨pyStrip cond0⟩ = .error m)) →
      execute_task session prompt =
        ({ task_type := "unknown", detail := "Condition false, no action executed",
           success := true }, [CapCall.query_selector ⟨pyStrip cond0⟩])) ∧
    (∀ els m, ifMatch (pyStrip prompt) = some (cond0, then0, some els) →
      session.query_selector ⟨pyStrip cond0⟩ = .error m →
      els ≠ [] →
      execute_task session prompt =
        ((execute_task session els).1,
         CapCall.query_selector ⟨pyStrip cond0⟩ :: (execute_task session els).2)) := by
  constructor
  · intro hIf hp
    have hne : pyStrip prompt ≠ [] := by
      intro h0
      rw [h0] at hIf
      exact Option.noConfusion ((rfl : ifMatch [] = none).symm.trans hIf)
    have hbody : execute_task_body session (execute_task session) (pyStrip prompt) =
        (.ok { task_type := "unknown", detail := "Condition false, no action executed",
               success := true }, [CapCall.query_selector ⟨pyStrip cond0⟩]) := by
      unfold execute_task_body
      rw [hIf]
      dsimp only
      rcases hp with hp | ⟨m, hp⟩ <;> rw [hp] <;> rfl
    rw [execute_task_eq, if_neg hne, hbody]
  · intro els m hIf hp hnil
    have hne : pyStrip prompt ≠ [] := by
      intro h0
      rw [h0] at hIf
      exact Option.noConfusion ((rfl : ifMatch [] = none).symm.trans hIf)
    have hbody : execute_task_body session (execute_task session) (pyStrip prompt) =
        (.ok (execute_task session els).1,
         CapCall.query_selector ⟨pyStrip cond0⟩ :: (execute_task session els).2) := by
      unfold execute_task_body
      rw [hIf]
      dsimp only
      rw [hp]
      simp only [Option.getD_some, Bool.false_eq_true, if_false]
      rw [if_pos hnil]
    rw [execute_task_eq, if_neg hne, hbody]

/-- C8, witness: both conjuncts at concrete inputs — probe answering
`false` with no else branch → neutral success with only the probe
call; probe raising with an else branch → the else branch's result. -/
theorem c8_witness :
    execute_task sessOK "if '.x' exists then click 'A'".data =
      ({ task_type := "unknown", detail := "Condition false, no action executed",
         success := true }, [CapCall.query_selector ".x"]) ∧
    execute_task sessProbeBoom "if '.x' exists then click 'A' else click 'B'".data =
      ((execute_task sessProbeBoom "click 'B'".data).1,
       CapCall.query_selector ".x" :: (execute_task sessProbeBoom "click 'B'".data).2) :=
  ⟨by
    have h := (c8_conditional sessOK "if '.x' exists then click 'A'".data
      ".x".data "click 'A'".data).1 (by decide) (Or.inl (by decide))
    simpa using h,
   by
    have h := (c8_conditional sessProbeBoom "if '.x' exists then click 'A' else click 'B'".data
      ".x".data "click 'A'".data).2 "click 'B'".data "probe died" (by decide) (by decide)
      (by decide)
    simpa using h⟩

/-! ## Claim C7 — extractor failures do not fail the Extract task -/

/-- C7 (confirmed): when the dispatched extraction routine raises
(after a successful navigation), `_extract_data` swallows the error and
returns the record `{query, results: [], error}` (no `count` key), and
the parent Extract task still succeeds: its `TaskResult` has
`success = true` and carries that record as `data`. -/
theorem c7_extract_error (session : BrowserSession) (prompt items0 url0 : List Char)
    (m : String) :
    ifMatch (pyStrip prompt) = none →
    extractMatch (pyStrip prompt) = some (items0, url0) →
    session.goto ⟨ensure_url (pyStrip url0)⟩ = .ok () →
    session.extract_evaluate (chooseScript ⟨pyStrip items0⟩) = .error m →
    execute_task session prompt =
      ({ task_type := "extract",
         detail := "Extracted 0 items: " ++ String.mk (pyStrip items0),
         success := true,
         data := some (.extracted { query := ⟨pyStrip items0⟩, results := [],
                                    count := none, error := some m }) },
       [CapCall.goto ⟨ensure_url (pyStrip url0)⟩,
        CapCall.extract_evaluate (chooseScript ⟨pyStrip items0⟩)]) := by
  intro hIf hEx hgoto heval
  have hne : pyStrip prompt ≠ [] := by
    intro h0
    rw [h0] at hEx
    exact Option.noConfusion ((rfl : extractMatch [] = none).symm.trans hEx)
  have hbody : execute_task_body session (execute_task session) (pyStrip prompt) =
      (.ok { task_type := "extract",
             detail := "Extracted 0 items: " ++ String.mk (pyStrip items0),
             success := true,
             data := some (.extracted { query := ⟨pyStrip items0⟩, results := [],
                                        count := none, error := some m }) },
       [CapCall.goto ⟨ensure_url (pyStrip url0)⟩,
        CapCall.extract_evaluate (chooseScript ⟨pyStrip items0⟩)]) := by
    unfold execute_task_body
    rw [hIf, hEx]
    dsimp only
    rw [hgoto]
    dsimp only
    unfold extract_data
    rw [heval]
    dsimp only [Option.getD]
    rfl
  rw [execute_task_eq, if_neg hne, hbody]

/-- C7, witness: `"extract links from https://a.com"` on a session
whose extraction routine raises `"bad js"`. -/
theorem c7_witness :
    execute_task sessExtractBoom "extract links from https://a.com".data =
      ({ task_type := "extract", detail := "Extracted 0 items: links", success := true,
         data := some (.extracted { query := "links", results := [], count := none,
                                    error := some "bad js" }) },
       [CapCall.goto "https://a.com", CapCall.extract_evaluate ExtractScript.links]) := by
  have h := c7_extract_error sessExtractBoom "extract links from https://a.com".data
    "links".data "https://a.com".data "bad js" (by decide) (by decide) (by decide) (by decide)
  simpa using h

/-! ## Claim C9 — URL absolutization -/

/-- C9, counterexample.  The claim prescribes an `http://` prefix for
any string starting with `localhost` "or a loopback address"; the code
(`_ensure_url`, lines 353–359) tests only the literal prefix
`127.0.0.1`.  `127.0.0.2` is a loopback address (all of `127.0.0.0/8`
is), yet it receives `https://`. -/
theorem c9_counterexample :
    ensure_url "127.0.0.2".data = "https://127.0.0.2".data ∧
    ensure_url "127.0.0.2".data ≠ "http://127.0.0.2".data := by decide

/-- C9 (amended): URL absolutization returns the string unchanged if it
already has a scheme (`^[a-z]+://`, case-insensitively); otherwise
prefixes `http://` if the string starts with the literal `localhost` or
the literal loopback address `127.0.0.1`; otherwise prefixes
`https://`.  In particular `"example.com"` normalizes to
`"https://example.com"` and `"localhost:3000"` to
`"http://localhost:3000"`. -/
theorem c9_ensure_url (raw : List Char) :
    (schemeMatch raw = true → ensure_url raw = raw) ∧
    (schemeMatch raw = false →
      ("localhost".data.isPrefixOf raw || "127.0.0.1".data.isPrefixOf raw) = true →
      ensure_url raw = "http://".data ++ raw) ∧
    (schemeMatch raw = false →
      ("localhost".data.isPrefixOf raw || "127.0.0.1".data.isPrefixOf raw) = false →
      ensure_url raw = "https://".data ++ raw) ∧
    ensure_url "example.com".data = "https://example.com".data ∧
    ensure_url "localhost:3000".data = "http://localhost:3000".data := by
  refine ⟨fun h1 => by simp [ensure_url, h1], fun h1 h2 => by simp [ensure_url, h1, h2],
    fun h1 h2 => by simp [ensure_url, h1, h2], by decide, by decide⟩

/-- C9, witness: the three rules applied at `"https://a.com"`,
`"localhost:3000"` and `"example.com"`. -/
theorem c9_witness :
    ensure_url "https://a.com".data = "https://a.com".data ∧
    ensure_url "localhost:3000".data = "http://".data ++ "localhost:3000".data ∧
    ensure_url "example.com".data = "https://".data ++ "example.com".data :=
  ⟨(c9_ensure_url "https://a.com".data).1 (by decide),
   (c9_ensure_url "localhost:3000".data).2.1 (by decide) (by decide),
   (c9_ensure_url "example.com".data).2.2.1 (by decide) (by decide)⟩

/-! ## Claim C2 — retry with exponential backoff on thrown errors -/

/-- Behaviour of the retry loop on an always-throwing operation:
starting at `attempt = a` with `r + 1` iterations left, every iteration
throws, the error of the last executed attempt (`a + r`) is re-raised,
`r + 1` invocations happen, and a sleep of `base_delay * 2 ^ i` occurs
after each attempt `i` with `i < max_retries`. -/
theorem retry_loop_throws (m : Nat) (b : ℚ) (errs : Nat → String) :
    ∀ (r a : Nat) (le : Option String),
      retry_loop ⟨m, b⟩ (fun i => .error (errs i)) (r + 1) a le =
        (.error (errs (a + r)), r + 1,
         (((List.range (r + 1)).map (a + ·)).filter (fun i => decide (i < m))).map
           (fun i => b * 2 ^ i)) := by
  intro r
  induction r with
  | zero =>
    intro a le
    simp only [retry_loop]
    by_cases ham : a < m <;> simp [ham, List.range_succ]
  | succ r ih =>
    intro a le
    conv_lhs => rw [retry_loop]
    dsimp only
    rw [ih (a + 1) (some (errs a))]
    have hidx : a + 1 + r = a + (r + 1) := by omega
    have hrange : (List.range (r + 1 + 1)).map (a + ·) =
        a :: (List.range (r + 1)).map ((a + 1) + ·) := by
      rw [List.range_succ_eq_map, List.map_cons, List.map_map]
      have hcomp : ((a + ·) ∘ Nat.succ) = ((a + 1) + ·) :=
        funext fun x => by simp only [Function.comp_apply]; omega
      rw [hcomp, Nat.add_zero]
    rw [hidx, hrange, List.filter_cons]
    by_cases ham : a < m <;> simp [ham]

/-- C2 (confirmed): for every `maxAttempts m` (`max_retries`),
`baseDelay b` and operation throwing at every call, the Retry Manager
invokes the operation exactly `m + 1` times, sleeps
`b * 2 ^ i` after the `i`-th failed attempt for `i = 0, …, m - 1` (no
sleep after the final attempt), and re-raises the last thrown error;
in particular with `max_retries = 2`, `base_delay = 1` the operation
runs 3 times with sleeps of 1 then 2 seconds and the final error is
re-raised. -/
theorem c2_retry_backoff :
    (∀ (m : Nat) (b : ℚ) (errs : Nat → String),
      execute_with_retry ⟨m, b⟩ (fun i => .error (errs i)) =
        (.error (errs m), m + 1, (List.range m).map (fun i => b * 2 ^ i))) ∧
    execute_with_retry ⟨2, 1⟩ (fun _ => .error "boom") =
      (.error "boom", 3, [1, 2]) := by
  constructor
  · intro m b errs
    unfold execute_with_retry
    rw [retry_loop_throws m b errs m 0 none]
    have h0 : (List.range (m + 1)).map (0 + ·) = List.range (m + 1) := by
      simp [Nat.zero_add]
    have hf : (List.range (m + 1)).filter (fun i => decide (i < m)) = List.range m := by
      rw [List.range_succ, List.filter_append]
      have h1 : (List.range m).filter (fun i => decide (i < m)) = List.range m :=
        List.filter_eq_self.mpr fun a ha => by simpa using List.mem_range.mp ha
      have h2 : [m].filter (fun i => decide (i < m)) = [] := by simp
      rw [h1, h2, List.append_nil]
    rw [h0, hf]
    simp
  · have h := retry_loop_throws 2 1 (fun _ => "boom") 2 0 none
    refine .trans ?_ (.trans h ?_)
    · rfl
    · norm_num [List.range_succ]

/-! ## Claim C6 — a returned failed result is not retried -/

/-- C6 (confirmed): if the wrapped operation *returns* (does not throw)
a truthy result whose `success` attribute is `False`, the Retry Manager
ends immediately at that attempt: the result is returned as-is after a
single invocation of that iteration, with no backoff sleep — both for
the loop at an arbitrary attempt and for `execute_with_retry` when the
first call returns such a result. -/
theorem c6_no_retry_on_failed_result (m : Nat) (b : ℚ)
    (task_fn : Nat → Except String PyObj) (v : PyObj) :
    pyTruthy v = true → successAttr v = some false →
    (∀ r a le, task_fn a = .ok v →
      retry_loop ⟨m, b⟩ task_fn (r + 1) a le = (.ok (some v), 1, [])) ∧
    (task_fn 0 = .ok v →
      execute_with_retry ⟨m, b⟩ task_fn = (.ok (some v), 1, [])) := by
  intro ht hs
  have key : ∀ r a le, task_fn a = .ok v →
      retry_loop ⟨m, b⟩ task_fn (r + 1) a le = (.ok (some v), 1, []) := by
    intro r a le hf
    conv_lhs => rw [retry_loop]
    rw [hf]
    simp [ht, hs]
  exact ⟨key, fun h0 => key m 0 none h0⟩

/-- C6, witness: `max_retries = 3`, `base_delay = 1`, operation
returning a truthy `success = False` object at its first call. -/
theorem c6_witness :
    execute_with_retry ⟨3, 1⟩ (fun _ => .ok (PyObj.obj true (some false))) =
      (.ok (some (PyObj.obj true (some false))), 1, []) :=
  (c6_no_retry_on_failed_result 3 1 (fun _ => .ok (PyObj.obj true (some false)))
    (PyObj.obj true (some false)) (by decide) (by decide)).2 (by decide)

/-! ## Claim C5 — variable expansion -/

/-- `str.replace` leaves a string without an occurrence of the pattern
unchanged. -/
theorem replaceAll_of_not_infix (p : Char) (ps rep : List Char) :
    ∀ s, containsSub (p :: ps) s = false → replaceAll p ps rep s = s := by
  intro s
  induction s with
  | nil => intro _; rfl
  | cons c cs ih =>
    intro h
    rw [containsSub, List.tails_cons, List.any_cons, Bool.or_eq_false_iff] at h
    unfold replaceAll replaceAllAux
    rw [if_neg (by simp [h.1])]
    exact congrArg (c :: ·) (ih h.2)

/-- After a hit, `replaceAllAux` skips the rest of the pattern. -/
theorem replaceAllAux_skip (p : Char) (ps rep : List Char) :
    ∀ (l : List Char) (n : Nat), l.length ≤ n → replaceAllAux p ps rep n l = [] := by
  intro l
  induction l with
  | nil => intro n _; cases n <;> rfl
  | cons c cs ih =>
    intro n hn
    match n, hn with
    | n + 1, hn => exact ih n (by simpa using hn)

/-- C5, counterexample.  The claim asserts that no substituted value is
itself subject to further placeholder substitution.  With the mapping
`a ↦ "{b}", b ↦ "X"` (in that iteration order), expanding `"{a}"`
yields `"X"`: the value `"{b}"` substituted by the first entry was
itself replaced by the second entry, not passed through verbatim. -/
theorem c5_counterexample :
    expand_variables "{a}".data [("a".data, "{b}".data), ("b".data, "X".data)] = "X".data ∧
    "X".data ≠ "{b}".data := by decide

/-- C5 (amended): variable expansion applies one global `str.replace`
per mapping entry, in iteration order of the mapping:
(i) if no key's `{name}` pattern occurs in the input, the input passes
through verbatim (in particular, placeholders without a matching key
are untouched); (ii) one entry never re-expands its own substituted
value — even a value containing the entry's own placeholder is
inserted verbatim by that entry; (iii) expansion is sequential: the
remaining entries are applied to the *result* of the first entry's
replace, so values substituted by earlier entries are subject to later
entries' replacements. -/
theorem c5_expand_variables (text : List Char) (vars : List (List Char × List Char)) :
    ((∀ kv ∈ vars, containsSub ('{' :: (kv.1 ++ ['}'])) text = false) →
      expand_variables text vars = text) ∧
    (∀ k v : List Char, expand_variables ('{' :: (k ++ ['}'])) [(k, v)] = v) ∧
    (∀ kv rest, expand_variables text (kv :: rest) =
      expand_variables (replaceAll '{' (kv.1 ++ ['}']) kv.2 text) rest) := by
  refine ⟨?_, ?_, fun kv rest => rfl⟩
  · induction vars generalizing text with
    | nil => intro _; rfl
    | cons kv rest ih =>
      intro h
      have h1 := h kv (List.mem_cons_self kv rest)
      have hstep : replaceAll '{' (kv.1 ++ ['}']) kv.2 text = text :=
        replaceAll_of_not_infix _ _ _ text h1
      show expand_variables (replaceAll '{' (kv.1 ++ ['}']) kv.2 text) rest = text
      rw [hstep]
      exact ih text fun kv' hkv' => h kv' (List.mem_cons_of_mem _ hkv')
  · intro k v
    show replaceAll '{' (k ++ ['}']) v ('{' :: (k ++ ['}'])) = v
    unfold replaceAll replaceAllAux
    rw [if_pos (by simp [List.isPrefixOf_iff_prefix])]
    rw [replaceAllAux_skip _ _ _ _ _ (le_refl _), List.append_nil]

/-- C5, witness: (i) a prompt whose placeholder has no matching key
passes through; (ii) a self-referential value is substituted once,
verbatim. -/
theorem c5_witness :
    expand_variables "hello {x}".data [("name".data, "Bob".data)] = "hello {x}".data ∧
    expand_variables "{a}".data [("a".data, "{a}".data)] = "{a}".data :=
  ⟨(c5_expand_variables "hello {x}".data [("name".data, "Bob".data)]).1 (by decide),
   (c5_expand_variables [] []).2.1 "a".data "{a}".data⟩

/-! ## Claim C4 — the URL-aware prompt splitter -/

theorem raw_segments_aux_ne_nil (cs : List Char) :
    ∀ prev u cur, raw_segments_aux prev u cur cs ≠ [] := by
  induction cs with
  | nil => intro prev u cur; simp [raw_segments_aux]
  | cons c rest ih =>
    intro prev u cur
    unfold raw_segments_aux
    dsimp only
    split
    · simp
    · exact ih _ _ _

/-- Re-joining the raw segments with `","` restores the scanned text
exactly: every separator comma is re-inserted by the join. -/
theorem joinComma_raw_segments_aux (cs : List Char) :
    ∀ prev u cur, joinComma (raw_segments_aux prev u cur cs) = cur ++ cs := by
  induction cs with
  | nil => intro prev u cur; simp [raw_segments_aux, joinComma]
  | cons c rest ih =>
    intro prev u cur
    unfold raw_segments_aux
    dsimp only
    split
    · rename_i hcond
      have hc : c = ',' := by
        simp only [Bool.and_eq_true, decide_eq_true_eq] at hcond
        exact hcond.1
      subst hc
      rcases hne : raw_segments_aux (some ',') (url_flag_step prev u cur ',' rest) [] rest
        with - | ⟨y, ys⟩
      · exact absurd hne (raw_segments_aux_ne_nil rest _ _ _)
      · show cur ++ ',' :: joinComma (y :: ys) = cur ++ ',' :: rest
        rw [← hne, ih]
        simp
    · rw [ih]
      simp

/-- The splitter equals "strip each raw segment, drop the blank ones". -/
theorem parse_eq_filterMap (cs : List Char) :
    ∀ prev u cur, parse_task_chain_aux prev u cur cs =
      (raw_segments_aux prev u cur cs).filterMap
        (fun seg => if pyStrip seg = [] then none else some (pyStrip seg)) := by
  induction cs with
  | nil =>
    intro prev u cur
    show (if pyStrip cur = [] then [] else [pyStrip cur]) = List.filterMap _ [cur]
    rw [List.filterMap_cons]
    split <;> simp_all
  | cons c rest ih =>
    intro prev u cur
    unfold parse_task_chain_aux raw_segments_aux
    dsimp only
    split
    · rw [List.filterMap_cons, ih]
      split <;> simp_all
    · exact ih _ _ _

theorem deWs_append (a b : List Char) : deWs (a ++ b) = deWs a ++ deWs b := by
  simp [deWs]

theorem deWs_comma_cons (l : List Char) : deWs (',' :: l) = ',' :: deWs l := by
  simp [deWs, pySpace]

theorem filter_dropWhile_pySpace (l : List Char) :
    (l.dropWhile pySpace).filter (fun c => !(pySpace c)) =
      l.filter (fun c => !(pySpace c)) := by
  induction l with
  | nil => rfl
  | cons c cs ih =>
    by_cases h : pySpace c
    · rw [List.dropWhile_cons_of_pos h, ih, List.filter_cons_of_neg (by simp [h])]
    · rw [List.dropWhile_cons_of_neg h]

/-- Stripping only removes whitespace. -/
theorem deWs_pyStrip (s : List Char) : deWs (pyStrip s) = deWs s := by
  unfold pyStrip deWs
  rw [List.filter_reverse, filter_dropWhile_pySpace, List.filter_reverse,
    filter_dropWhile_pySpace, List.reverse_reverse]

theorem deWs_joinComma_strip : ∀ segs : List (List Char),
    deWs (joinComma (segs.map pyStrip)) = deWs (joinComma segs) := by
  intro segs
  induction segs with
  | nil => rfl
  | cons x xs ih =>
    cases xs with
    | nil => exact deWs_pyStrip x
    | cons y ys =>
      show deWs (pyStrip x ++ ',' :: joinComma ((y :: ys).map pyStrip)) =
        deWs (x ++ ',' :: joinComma (y :: ys))
      rw [deWs_append, deWs_append, deWs_pyStrip x, deWs_comma_cons, deWs_comma_cons, ih]

theorem filterMap_eq_map_strip : ∀ segs : List (List Char),
    (∀ seg ∈ segs, pyStrip seg ≠ []) →
    segs.filterMap (fun seg => if pyStrip seg = [] then none else some (pyStrip seg)) =
      segs.map pyStrip := by
  intro segs
  induction segs with
  | nil => intro _; rfl
  | cons x xs ih =>
    intro h
    rw [List.filterMap_cons, if_neg (h x (List.mem_cons_self x xs)), List.map_cons,
      ih fun seg hseg => h seg (List.mem_cons_of_mem _ hseg)]

/-- While the `in_url` flag is set, any character other than a space —
a comma included — is appended to the current fragment and the flag
stays set. -/
theorem parse_aux_cons_locked (prev : Option Char) (cur : List Char) (c : Char)
    (rest : List Char) (hc : c ≠ ' ') :
    parse_task_chain_aux prev true cur (c :: rest) =
      parse_task_chain_aux (some c) true (cur ++ [c]) rest := by
  have hflag : url_flag_step prev true cur c rest = true := by
    unfold url_flag_step
    split
    · rfl
    · rw [if_neg (by simp [hc])]
  conv_lhs => rw [parse_task_chain_aux]
  rw [hflag]
  simp only [Bool.not_true, Bool.and_false, Bool.false_eq_true, if_false]

/-- From a state inside a URL, the scan up to and including the next
comma (no space intervening) only grows the current fragment: no
fragment boundary is placed at that comma. -/
theorem parse_aux_url_locked :
    ∀ (s2 : List Char) (prev : Option Char) (cur s3 : List Char), (∀ c ∈ s2, c ≠ ' ') →
      parse_task_chain_aux prev true cur (s2 ++ ',' :: s3) =
        parse_task_chain_aux (some ',') true ((cur ++ s2) ++ [',']) s3 := by
  intro s2
  induction s2 with
  | nil =>
    intro prev cur s3 _
    rw [List.nil_append, parse_aux_cons_locked prev cur ',' s3 (by decide), List.append_nil]
  | cons c s2' ih =>
    intro prev cur s3 h
    have hc : c ≠ ' ' := h c (List.mem_cons_self c s2')
    rw [List.cons_append, parse_aux_cons_locked prev cur c _ hc,
      ih (some c) (cur ++ [c]) s3 fun d hd => h d (List.mem_cons_of_mem _ hd)]
    simp

/-- C4, counterexample.  The prompt `"go to http://a.com ,"` contains a
URL with no internal commas, yet the trailing separator comma delimits
a blank segment, which the splitter silently drops: re-joining the
fragments with `","` loses that comma, so the round trip does not
reproduce the prompt modulo whitespace. -/
theorem c4_counterexample :
    parse_task_chain "go to http://a.com ,".data = ["go to http://a.com".data] ∧
    deWs (joinComma (parse_task_chain "go to http://a.com ,".data)) ≠
      deWs "go to http://a.com ,".data := by decide

/-- C4 (amended): (i) for every prompt in which each separator-delimited
segment contains a non-whitespace character (no URL hypothesis is even
needed — commas inside URL spans are retained in their fragment and so
survive the round trip), joining the splitter's fragments with `","`
reproduces the prompt modulo whitespace; (ii) the splitter never places
a fragment boundary inside a URL's scheme-to-space span: from the `:/`
of the scheme up to any following comma with no space in between, the
scan keeps everything (that comma included) inside the current
fragment, for any scanner state. -/
theorem c4_splitter (prompt : List Char) :
    ((∀ seg ∈ raw_segments prompt, pyStrip seg ≠ []) →
      deWs (joinComma (parse_task_chain prompt)) = deWs prompt) ∧
    (∀ (prev : Option Char) (u : Bool) (cur s2 s3 : List Char), (∀ c ∈ s2, c ≠ ' ') →
      parse_task_chain_aux prev u cur (':' :: '/' :: (s2 ++ ',' :: s3)) =
        parse_task_chain_aux (some ',') true ((cur ++ [':', '/'] ++ s2) ++ [',']) s3) := by
  constructor
  · intro hsegs
    replace hsegs : ∀ seg ∈ raw_segments_aux none false [] prompt, pyStrip seg ≠ [] := hsegs
    rw [parse_task_chain, parse_eq_filterMap, filterMap_eq_map_strip _ hsegs,
      deWs_joinComma_strip, joinComma_raw_segments_aux]
    rfl
  · intro prev u cur s2 s3 hs2
    show parse_task_chain_aux (some '/') true ((cur ++ [':']) ++ ['/']) (s2 ++ ',' :: s3) =
      parse_task_chain_aux (some ',') true ((cur ++ [':', '/'] ++ s2) ++ [',']) s3
    rw [parse_aux_url_locked s2 (some '/') ((cur ++ [':']) ++ ['/']) s3 hs2]
    simp

/-- C4, witness: the round trip at a well-formed two-task prompt whose
URL contains no commas, and the no-boundary property at a concrete
URL-with-comma split. -/
theorem c4_witness :
    deWs (joinComma (parse_task_chain "go to http://a.com/x, click Y".data)) =
      deWs "go to http://a.com/x, click Y".data ∧
    parse_task_chain_aux none false "go to http".data
        (':' :: '/' :: ("a.com/x".data ++ ',' :: "y, click Z".data)) =
      parse_task_chain_aux (some ',') true
        (("go to http".data ++ [':', '/'] ++ "a.com/x".data) ++ [',']) "y, click Z".data :=
  ⟨(c4_splitter "go to http://a.com/x, click Y".data).1 (by decide),
   (c4_splitter []).2 none false "go to http".data "a.com/x".data "y, click Z".data
     (by decide)⟩

/-! ## Claim C3 — the chain executor stops at the first failure -/

/-- C3 (confirmed): with `continue_on_error = false`, the chain
executor executes exactly the non-blank tasks up to and including the
first one whose `TaskResult` has `success = false` (position `k` among
the non-blank tasks): the returned result list is the results of that
prefix — later tasks are absent, not marked failed — the accumulated
capability calls are exactly those of that prefix (no later task is
attempted), and the aggregate success (the AND of the attempted
results) is `false`.  When no executed task fails, all non-blank tasks
run. -/
theorem c3_chain_stops (session : BrowserSession) (tasks : List (List Char)) :
    (∀ k, (nonblank_tasks tasks).findIdx?
        (fun t => !(execute_task session t).1.success) = some k →
      execute_task_chain session false tasks =
        (((nonblank_tasks tasks).take (k + 1)).map (fun t => (execute_task session t).1),
         ((nonblank_tasks tasks).take (k + 1)).flatMap
           (fun t => (execute_task session t).2)) ∧
      (((nonblank_tasks tasks).take (k + 1)).map
          (fun t => (execute_task session t).1)).all (·.success) = false) ∧
    ((nonblank_tasks tasks).findIdx?
        (fun t => !(execute_task session t).1.success) = none →
      execute_task_chain session false tasks =
        ((nonblank_tasks tasks).map (fun t => (execute_task session t).1),
         (nonblank_tasks tasks).flatMap (fun t => (execute_task session t).2))) := by
  induction tasks with
  | nil =>
    constructor
    · intro k hk
      simp [nonblank_tasks] at hk
    · intro _
      simp [execute_task_chain, nonblank_tasks]
  | cons t rest ih =>
    by_cases hb : pyStrip t = []
    · have hnb : nonblank_tasks (t :: rest) = nonblank_tasks rest := by
        simp [nonblank_tasks, hb]
      have hchain : execute_task_chain session false (t :: rest) =
          execute_task_chain session false rest := by
        conv_lhs => rw [execute_task_chain]
        rw [if_neg (by simp [hb])]
      rw [hnb, hchain]
      exact ih
    · have hnb : nonblank_tasks (t :: rest) = pyStrip t :: nonblank_tasks rest := by
        simp [nonblank_tasks, hb]
      rw [hnb]
      by_cases hsucc : (execute_task session (pyStrip t)).1.success
      · have hchain : execute_task_chain session false (t :: rest) =
            ((execute_task session (pyStrip t)).1 ::
               (execute_task_chain session false rest).1,
             (execute_task session (pyStrip t)).2 ++
               (execute_task_chain session false rest).2) := by
          conv_lhs => rw [execute_task_chain]
          rw [if_pos hb]
          dsimp only
          rw [if_neg (by simp [hsucc])]
        constructor
        · intro k hk
          rw [List.findIdx?_cons, if_neg (by simp [hsucc]), List.findIdx?_start_succ,
            Option.map_eq_some'] at hk
          obtain ⟨k', hk', rfl⟩ := hk
          obtain ⟨h1, h2⟩ := ih.1 k' hk'
          rw [List.take_succ_cons, List.map_cons, List.flatMap_cons, List.all_cons,
            hchain, h1, h2]
          simp [hsucc]
        · intro hnone
          rw [List.findIdx?_cons, if_neg (by simp [hsucc]), List.findIdx?_start_succ,
            Option.map_eq_none'] at hnone
          have h1 := ih.2 hnone
          rw [List.map_cons, List.flatMap_cons, hchain, h1]
      · have hchain : execute_task_chain session false (t :: rest) =
            ([(execute_task session (pyStrip t)).1],
             (execute_task session (pyStrip t)).2) := by
          conv_lhs => rw [execute_task_chain]
          rw [if_pos hb]
          dsimp only
          rw [if_pos (by simp [hsucc])]
        constructor
        · intro k hk
          rw [List.findIdx?_cons, if_pos (by simp [hsucc]), Option.some_inj] at hk
          subst hk
          rw [List.take_succ_cons, List.take_zero, List.map_cons, List.map_nil,
            List.flatMap_cons, List.flatMap_nil, List.append_nil, hchain]
          simp [hsucc]
        · intro hnone
          rw [List.findIdx?_cons, if_pos (by simp [hsucc])] at hnone
          cases hnone

/-- C3, witness: chain `["go to a.com", "click X", "press Enter"]` on a
session whose `click` raises — the first task succeeds, the second
fails, so `k = 1`: only the first two tasks are attempted (two results,
calls `goto` then `click` only) and the aggregate success is false. -/
theorem c3_witness :
    execute_task_chain sessClickBoom false
        ["go to a.com".data, "click X".data, "press Enter".data] =
      ([({ task_type := "navigate", detail := "https://a.com", success := true } : TaskResult),
        { task_type := "unknown", detail := "click X", success := false,
          error_message := "Failed to execute task: boom" }],
       [CapCall.goto "https://a.com", CapCall.click "X"]) ∧
    ([({ task_type := "navigate", detail := "https://a.com", success := true } : TaskResult),
        { task_type := "unknown", detail := "click X", success := false,
          error_message := "Failed to execute task: boom" }]).all (·.success) = false := by
  have h := (c3_chain_stops sessClickBoom
    ["go to a.com".data, "click X".data, "press Enter".data]).1 1 (by decide)
  constructor
  · refine .trans h.1 ?_
    decide
  · decide

end Nava
